import Mathlib

set_option maxRecDepth 100000

/-!
Shallow embedding of the docs-json-schema-utility-plugin repository, a static
documentation site.  Each source module exports a metadata record and, for
content pages, a default page-rendering function returning an element tree.
Element trees are embedded as `Node` values; metadata object literals as
association lists of fields in source order, so that the presence or absence
of a field in the source object is part of the embedding.
-/

/-- A rendered element tree: an element with tag, attributes and children, or
a text run (ordinary JSX text, or a template-literal child such as the code
samples of ExampleCpp elements). -/
inductive Node where
  | elem (tag : String) (attrs : List (String × String)) (children : List Node)
  | text (s : String)

/-- A field value of a metadata object literal: the metadata objects in the
source use only string literals and numeric literals. -/
inductive FieldValue where
  | str (s : String)
  | num (n : Nat)
deriving DecidableEq

/-- A metadata object literal, embedded as its field list in source order. -/
abbrev MetadataObj := List (String × FieldValue)

/-- The names of the fields a metadata object declares, in source order. -/
def fieldNames (m : MetadataObj) : List String := m.map Prod.fst

/-- Whether a metadata object declares a field of the given name. -/
def hasField (m : MetadataObj) (k : String) : Bool := (fieldNames m).contains k

/-- The string value of a field, when the object declares it as a string. -/
def getStr (m : MetadataObj) (k : String) : Option String :=
  match m.find? (fun f => f.1 == k) with
  | some (_, .str s) => some s
  | _ => none

/-- The numeric value of a field, when the object declares it as a number. -/
def getNum (m : MetadataObj) (k : String) : Option Nat :=
  match m.find? (fun f => f.1 == k) with
  | some (_, .num n) => some n
  | _ => none

/-- The kind field of a metadata object. -/
def kindOf (m : MetadataObj) : Option String := getStr m "kind"

/-- The title field of a metadata object. -/
def titleOf (m : MetadataObj) : Option String := getStr m "title"

/-- The href field of a metadata object. -/
def hrefOf (m : MetadataObj) : Option String := getStr m "href"

/-- The icon field of a metadata object. -/
def iconOf (m : MetadataObj) : Option String := getStr m "icon"

/-- The order field of a metadata object. -/
def orderValOf (m : MetadataObj) : Option Nat := getNum m "order"

/-- One entry of the site configuration's headerLinks block, following the
SiteConfig type used by the configuration module of src/community/issues.tsx. -/
structure HeaderLink where
  label : String
  href : String
  icon : String
  ariaLabel : String
deriving DecidableEq

/-- The headerLinks block of the site configuration. -/
structure HeaderLinks where
  github : HeaderLink
  discord : HeaderLink
  fab : HeaderLink
deriving DecidableEq

/-- The links block of the site configuration. -/
structure SiteLinks where
  github : String
  documentation : String
deriving DecidableEq

/-- The github block of the site configuration. -/
structure GithubInfo where
  baseUrl : String
  branch : String
  owner : String
  repo : String
deriving DecidableEq

/-- The site configuration record (shape of the default export of the
configuration module of src/community/issues.tsx). -/
structure SiteConfig where
  name : String
  url : String
  thumbnail : String
  description : String
  links : SiteLinks
  github : GithubInfo
  headerLinks : HeaderLinks
deriving DecidableEq

/-- The site configuration, the default export of the third module of
src/community/issues.tsx.  Its url field is computed by the imported helper
getSiteUrl, which lives outside this repository, so the configuration is
parameterised by that helper; every other field is a literal. -/
def siteConfig (getSiteUrl : String → String) : SiteConfig :=
  { name := "Json Object & Schema Utility Plugin"
    url := getSiteUrl "json-schema"
    thumbnail := "@/assets/json-schema-launcher.png"
    description := "Utility plugin for JSON objects and schemas. Provides tools for validation, transformation, and schema generation."
    links :=
      { github := "https://github.com/osmalpkoras/docs-json-schema-utility-plugin"
        documentation := "/json-schema" }
    github :=
      { baseUrl := "https://github.com/osmalpkoras/docs-json-schema-utility-plugin"
        branch := "main"
        owner := "oakisnotree"
        repo := "docs-json-schema-utility-plugin" }
    headerLinks :=
      { github :=
          { label := "GitHub"
            href := "https://github.com/osmalpkoras/docs-json-schema-utility-plugin"
            icon := "Github"
            ariaLabel := "View on GitHub" }
        discord :=
          { label := "Discord"
            href := "https://discord.com/invite/VR6YMu8wb5"
            icon := "MessageCircle"
            ariaLabel := "Join Discord" }
        fab :=
          { label := "FAB"
            href := "https://www.fab.com/listings/37f4c8e1-0f72-48ad-9659-2d9801149e16"
            icon := "ShoppingCart"
            ariaLabel := "View on FAB - Unreal Engine Marketplace" } } }
namespace BugReport

/-- Metadata of the bug-report external-link module (first module of src/community/issues.tsx). -/
def metadata : MetadataObj := [
  ("kind", .str "external"),
  ("title", .str "Report an Bug"),
  ("href", .str "https://github.com/osmalpkoras/docs-json-schema-utility-plugin/issues/new?template=bug_report.md"),
  ("description", .str "Report an issue with the JSON Object & Schema Utility plugin"),
  ("icon", .str "Bug"),
  ("order", .num 2)]

end BugReport

namespace Home

/-- Metadata of the home/landing page (second module of src/community/issues.tsx); its object literal declares kind, title, description and order only. -/
def metadata : MetadataObj := [
  ("kind", .str "content"),
  ("title", .str "JSON Object & Schema Utility Plugin"),
  ("description", .str "Transform UObject classes into JSON Schema-validated data with automatic serialization"),
  ("order", .num 1)]

/-- The default-exported rendering function of the home page.  The source reads the site configuration through the useSite hook; the embedding passes the configuration explicitly. -/
def HomePage (cfg : SiteConfig) : Node :=
  .elem "SiteDocumentation" [] [
    .elem "PageContainer" [] [
      .elem "h1" [] [
        .text "JSON Object & Schema Utility Plugin"],
      .elem "div" [("className", "flex flex-col lg:flex-row gap-4 items-start mb-4")] [
        .elem "Image" [("src", "@/assets/json-schema-launcher.png"), ("alt", "JSON Object & Schema Utility Plugin Logo"), ("width", "160"), ("height", "160"), ("className", "rounded-lg border shadow-sm m-0!")] [],
        .elem "p" [("className", "flex-1 text-sm text-muted-foreground leading-relaxed m-0!")] [
          .text "The JSON Object & Schema Utility Plugin transforms your Unreal Engine UObject classes into fully validated JSON with automatic schema generation, seamless bidirectional serialization, and OpenAI integration support."]],
      .elem "div" [("className", "flex flex-wrap gap-3 items-center justify-center")] [
        .elem "Button" [] [
          .elem "a" [("href", cfg.headerLinks.fab.href), ("target", "_blank"), ("rel", "noopener noreferrer")] [
            .text "Buy on FAB"]],
        .elem "Button" [("variant", "outline")] [
          .elem "a" [("href", cfg.headerLinks.github.href), ("target", "_blank"), ("rel", "noopener noreferrer")] [
            .text "View on GitHub"]],
        .elem "Button" [("variant", "outline")] [
          .elem "a" [("href", cfg.headerLinks.discord.href), ("target", "_blank"), ("rel", "noopener noreferrer")] [
            .text "Join Discord"]]],
      .elem "div" [("className", "space-y-6")] [
        .elem "p" [] [
          .text "The plugin is designed to make it easy to work with and integrate JSON Schema into your projects: define schemas using UPROPERTY metadata, serialize objects to JSON and deserialize back with full data integrity, export schemas for external APIs like OpenAI, and work seamlessly across your game logic and runtime code. Whether for in-editor tools or runtime gameplay, the plugin provides a solid foundation for data-driven systems with structured validation."],
        .elem "div" [("className", "border-l-2 border-blue-500 pl-4 bg-blue-50 dark:bg-blue-950/20 rounded-r p-4")] [
          .elem "p" [("className", "font-semibold")] [
            .text "Core Idea"],
          .elem "p" [("className", "text-sm text-muted-foreground mt-2")] [
            .text "Implement the IJsonSchema interface on your UClass to automatically get JSON serialization, deserialization, and JSON Schema generation with full support for OpenAI's structured output specification."]],
        .elem "h2" [] [
          .text "What It Does"],
        .elem "ul" [("className", "space-y-2")] [
          .elem "li" [] [
            .elem "strong" [] [
              .text "Bidirectional Serialization:"],
            .text "Convert objects to JSON and reconstruct them from JSON with full data integrity"],
          .elem "li" [] [
            .elem "strong" [] [
              .text "Automatic Schema Generation:"],
            .text "Your class definition automatically generates complete JSON Schemas ready for API integration"],
          .elem "li" [] [
            .elem "strong" [] [
              .text "Reflection-Driven Constraints:"],
            .text "Define schema constraints directly in UPROPERTY metadata—patterns, ranges, array limits, and more"],
          .elem "li" [] [
            .elem "strong" [] [
              .text "OpenAI Compatible:"],
            .text "Generate schemas that conform to OpenAI's structured output specification"],
          .elem "li" [] [
            .elem "strong" [] [
              .text "Blueprint Ready:"],
            .text "Serialize and deserialize objects directly from Blueprint"],
          .elem "li" [] [
            .elem "strong" [] [
              .text "Runtime Optimized:"],
            .text "Pre-cached schemas eliminate reflection overhead with direct property access"]],
        .elem "h2" [] [
          .text "Installation"],
        .elem "p" [] [
          .text "Add the JSON Object & Schema Utility Plugin to your Unreal Engine 5 project. The plugin is part of the Generative AI Integration package and can be installed from the FAB Marketplace or by cloning the source from GitHub."],
        .elem "Callout" [("type", "info"), ("title", "Engine Support")] [
          .elem "p" [] [
            .text "The plugin requires Unreal Engine 5.0 or later."]],
        .elem "h2" [] [
          .text "Getting Started"],
        .elem "StepList" [] [
          .elem "Step" [("title", "Enable the Plugin")] [
            .elem "p" [] [
              .text "Ensure the JSON Object & Schema Utility Plugin is enabled in your project. Go to",
              .elem "strong" [] [
                .text "Edit → Plugins"],
              .text "and search for \"JSON Schema\". Make sure it's enabled."]],
          .elem "Step" [("title", "Implement IJsonSchema Interface")] [
            .elem "p" [] [
              .text "Create or modify your UClass to inherit from",
              .elem "code" [] [
                .text "IJsonSchema"],
              .text ":"]],
          .elem "Step" [("title", "Configure the Schema Cache")] [
            .elem "p" [] [
              .text "Go to",
              .elem "strong" [] [
                .text "Edit → Project Settings → Plugins → JSON Object & Schema Utility"],
              .text "and select a Schema Cache data asset. You can create a new one if none exists. The cache is automatically populated when you compile your project."]]],
        .elem "h2" [] [
          .text "Your First Serialization"],
        .elem "p" [] [
          .text "Once your class implements IJsonSchema, you can immediately serialize and deserialize objects:"],
        .elem "h2" [] [
          .text "Common Use Cases"],
        .elem "ul" [("className", "space-y-2")] [
          .elem "li" [] [
            .elem "strong" [] [
              .text "OpenAI Integration:"],
            .text "Generate schemas and deserialize AI responses directly into your game objects"],
          .elem "li" [] [
            .elem "strong" [] [
              .text "REST API Communication:"],
            .text "Serialize game data for backend APIs with schema compatibility"],
          .elem "li" [] [
            .elem "strong" [] [
              .text "Data Persistence:"],
            .text "Save and load game configurations with structured data"],
          .elem "li" [] [
            .elem "strong" [] [
              .text "Plugin Communication:"],
            .text "Share structured data between plugins with consistent schemas"]],
        .elem "div" [("className", "p-6 bg-muted rounded-lg")] [
          .elem "h3" [("className", "mt-0 font-semibold")] [
            .text "Next Steps"],
          .elem "p" [("className", "text-sm")] [
            .text "Explore the documentation to learn how to:"],
          .elem "ul" [("className", "text-sm")] [
            .elem "li" [] [
              .text "Define your own JSON schemas with comprehensive property options"],
            .elem "li" [] [
              .text "Build and manage the schema cache"],
            .elem "li" [] [
              .text "Convert between object instances and JSON bidirectionally"],
            .elem "li" [] [
              .text "Export schemas for integration with OpenAI and other APIs"]]]],
      .elem "PageFooter" [] []]]

end Home

namespace DefiningSchemas

/-- Metadata of src/defining-schemas.tsx. -/
def metadata : MetadataObj := [
  ("kind", .str "content"),
  ("title", .str "Defining Schemas"),
  ("description", .str "Learn how to define JSON schemas using UPROPERTY metadata"),
  ("order", .num 3),
  ("icon", .str "Zap")]

/-- The default-exported rendering function of src/defining-schemas.tsx. -/
def DefiningSchemaPage : Node :=
  .elem "SiteDocumentation" [] [
    .elem "PageContainer" [] [
      .elem "PageHeader" [] [],
      .elem "LanguageToggleProvider" [] [
        .elem "div" [("className", "space-y-6")] [
          .elem "p" [("className", "text-lg text-muted-foreground")] [
            .text "Define your JSON schema directly in your Unreal Engine class using UPROPERTY metadata. The plugin leverages Unreal's reflection system to generate schemas at compile-time. Your class definition becomes your schema definition, and all UPROPERTY metadata is automatically translated to JSON Schema properties."],
          .elem "h2" [] [
            .text "Schema Generation from Reflection"],
          .elem "p" [] [
            .text "Every UPROPERTY-decorated property in your class is automatically included in the generated JSON schema. The schema includes type information, constraints, and documentation based on your metadata. This schema can be exported for use with external APIs that follow the JSON Schema specification."],
          .elem "h2" [] [
            .text "Excluding Properties"],
          .elem "p" [] [
            .text "By default, all UPROPERTY-decorated properties are included in the JSON schema. To exclude a property from serialization and schema generation, use the",
            .elem "code" [] [
              .text "JsonSchema_ExcludeFromSchema"],
            .text "metadata flag:"],
          .elem "CodeExample" [("title", "Excluding Properties from Schema"), ("description", "Control which properties are included in the generated JSON schema"), ("cppCode", "UCLASS()\nclass ACharacter : public AActor, public IJsonSchema\n\x7b\n    GENERATED_BODY()\npublic:\n    // This property IS included in the schema\n    UPROPERTY(EditAnywhere, BlueprintReadWrite)\n    FString CharacterName;\n\n    // This property is NOT included (excluded from schema)\n    UPROPERTY(EditAnywhere, BlueprintReadWrite,\n        Meta = (JsonSchema_ExcludeFromSchema))\n    int32 InternalCounter;\n\x7d;")] [],
          .elem "h2" [] [
            .text "Optional Properties"],
          .elem "p" [] [
            .text "Mark properties as optional using the",
            .elem "code" [] [
              .text "JsonSchema_Optional"],
            .text "metadata flag. Optional properties can be absent from JSON during deserialization without causing errors. When optional properties are not present in JSON, they retain their default values."],
          .elem "CodeExample" [("title", "Marking Properties as Optional"), ("description", "Define properties that don't need to be present in JSON"), ("cppCode", "// Optional string property\nUPROPERTY(EditAnywhere, BlueprintReadWrite,\n    Meta = (JsonSchema_Optional,\n            ToolTip = \"Optional character biography\"))\nFString Biography;\n\n// Optional nested object\nUPROPERTY(EditAnywhere, BlueprintReadWrite,\n    Meta = (JsonSchema_Optional,\n            ToolTip = \"Optional special equipment\"))\nUEquipment* SpecialEquipment;\n\n// Optional enumeration\nUPROPERTY(EditAnywhere, BlueprintReadWrite,\n    Meta = (JsonSchema_Optional))\nECharacterClass SecondaryClass;")] [],
          .elem "h3" [] [
            .text "Runtime Optional Overrides"],
          .elem "p" [] [
            .text "For advanced use cases, you can override which properties are optional at runtime by implementing",
            .elem "code" [] [
              .text "GetOptionalPropertyOverrides()"],
            .text "in your class:"],
          .elem "CodeExample" [("title", "Runtime Optional Property Overrides"), ("description", "Dynamically control which properties are optional during deserialization"), ("cppCode", "UCLASS()\nclass AGameCharacter : public ACharacter, public IJsonSchema\n\x7b\n    GENERATED_BODY()\npublic:\n    virtual TArray<FName> GetOptionalPropertyOverrides() const override\n    \x7b\n        // These properties will be treated as optional during deserialization\n        // regardless of their JsonSchema_Optional metadata\n        return \x7b\n            GET_MEMBER_NAME_CHECKED(AGameCharacter, Biography),\n            GET_MEMBER_NAME_CHECKED(AGameCharacter, SpecialEquipment)\n        \x7d;\n    \x7d\n\n    UPROPERTY(EditAnywhere, BlueprintReadWrite)\n    FString CharacterName;\n\n    UPROPERTY(EditAnywhere, BlueprintReadWrite)\n    FString Biography;\n\n    UPROPERTY(EditAnywhere, BlueprintReadWrite)\n    UEquipment* SpecialEquipment;\n\x7d;")] [],
          .elem "h2" [] [
            .text "String Properties"],
          .elem "p" [] [
            .text "String properties can include pattern validation and format specifications. These metadata values are translated directly into JSON Schema properties:"],
          .elem "CodeExample" [("title", "String Properties with Patterns and Formats"), ("description", "Define string properties with regex patterns and format specifications"), ("cppCode", "// String with regex pattern\nUPROPERTY(EditAnywhere, BlueprintReadWrite,\n    Meta = (JsonSchema_Pattern = \"^[a-zA-Z0-9_]+$\",\n            ToolTip = \"Username must be alphanumeric with underscores\"))\nFString Username;\n\n// String with UUID format\nUPROPERTY(EditAnywhere, BlueprintReadWrite,\n    Meta = (JsonSchema_Format = \"uuid\",\n            ToolTip = \"Unique identifier\"))\nFString UniqueID;\n\n// String with email format\nUPROPERTY(EditAnywhere, BlueprintReadWrite,\n    Meta = (JsonSchema_Format = \"email\",\n            ToolTip = \"Contact email address\"))\nFString ContactEmail;\n\n// String with URI format\nUPROPERTY(EditAnywhere, BlueprintReadWrite,\n    Meta = (JsonSchema_Format = \"uri\",\n            ToolTip = \"Web address\"))\nFString WebsiteUrl;")] [],
          .elem "Callout" [("type", "info"), ("title", "Format Support")] [
            .elem "p" [] [
              .text "Supported formats include: uuid, email, uri, date, time, date-time, and more as per the JSON Schema specification."]],
          .elem "h2" [] [
            .text "Numeric Properties"],
          .elem "p" [] [
            .text "Define ranges and divisibility rules for integer and floating-point properties. These metadata values are translated into JSON Schema numeric constraints:"],
          .elem "CodeExample" [("title", "Numeric Properties with Constraints"), ("description", "Define numeric properties with min/max bounds and divisibility rules"), ("cppCode", "// Integer with inclusive min/max bounds\nUPROPERTY(EditAnywhere, BlueprintReadWrite,\n    Meta = (JsonSchema_Minimum = \"1\", JsonSchema_Maximum = \"100\",\n            ToolTip = \"Health points (1-100)\"))\nint32 Health = 100;\n\n// Float with exclusive minimum (value must be greater than 0)\nUPROPERTY(EditAnywhere, BlueprintReadWrite,\n    Meta = (JsonSchema_Minimum = \"0\", JsonSchema_ExclusiveMinimum,\n            ToolTip = \"Damage multiplier (must be > 0)\"))\nfloat DamageMultiplier = 1.0f;\n\n// Numeric value that must be a multiple of a specific number\nUPROPERTY(EditAnywhere, BlueprintReadWrite,\n    Meta = (JsonSchema_MultipleOf = \"0.5\",\n            ToolTip = \"Attack speed (must be multiple of 0.5)\"))\nfloat AttackSpeed = 1.0f;\n\n// Using exclusive maximum\nUPROPERTY(EditAnywhere, BlueprintReadWrite,\n    Meta = (JsonSchema_Maximum = \"1.0\", JsonSchema_ExclusiveMaximum,\n            ToolTip = \"Damage reduction (must be < 1.0)\"))\nfloat DamageReduction = 0.5f;")] [],
          .elem "h2" [] [
            .text "Array Properties"],
          .elem "p" [] [
            .text "Array properties support constraints on the number of items. These metadata values are translated into JSON Schema array constraints:"],
          .elem "CodeExample" [("title", "Array Properties with Item Constraints"), ("description", "Define array properties with min and max item count constraints"), ("cppCode", "// Array with item count constraints\nUPROPERTY(EditAnywhere, BlueprintReadWrite,\n    Meta = (JsonSchema_MinItems = \"1\", JsonSchema_MaxItems = \"5\",\n            ToolTip = \"Special abilities (1-5 abilities)\"))\nTArray<FString> Abilities;\n\n// Array with minimum items required\nUPROPERTY(EditAnywhere, BlueprintReadWrite,\n    Meta = (JsonSchema_MinItems = \"3\",\n            ToolTip = \"RGB color components (at least 3 items)\"))\nTArray<int32> ColorValues;\n\n// Array with no constraints\nUPROPERTY(EditAnywhere, BlueprintReadWrite,\n    Meta = (ToolTip = \"List of inventory items\"))\nTArray<FString> InventoryItems;")] [],
          .elem "h2" [] [
            .text "Enumeration Properties"],
          .elem "p" [] [
            .text "Enumerations are automatically serialized as human-readable strings and included in the JSON schema as enum constraints:"],
          .elem "CodeExample" [("title", "Enumeration Properties"), ("description", "Define enum properties that are serialized as strings in JSON"), ("cppCode", "UENUM(BlueprintType)\nenum class ECharacterClass : uint8\n\x7b\n    Warrior UMETA(DisplayName = \"Warrior\"),\n    Mage UMETA(DisplayName = \"Mage\"),\n    Rogue UMETA(DisplayName = \"Rogue\"),\n\x7d;\n\nUCLASS()\nclass ACharacter : public AActor, public IJsonSchema\n\x7b\n    GENERATED_BODY()\npublic:\n    UPROPERTY(EditAnywhere, BlueprintReadWrite)\n    ECharacterClass CharacterClass = ECharacterClass::Warrior;\n\n    UPROPERTY(EditAnywhere, BlueprintReadWrite,\n        Meta = (JsonSchema_Optional,\n                ToolTip = \"Secondary character class\"))\n    ECharacterClass SecondaryClass;\n\x7d;\n\n// Serialized as: \x7b\"character_class\":\"Warrior\",\"secondary_class\":\"Mage\"\x7d\n// Schema includes enum as: \"enum\": [\"Warrior\", \"Mage\", \"Rogue\"]")] [],
          .elem "h2" [] [
            .text "Nested Objects"],
          .elem "p" [] [
            .text "Include other UObjects that implement IJsonSchema as nested properties. The schema recursively includes the nested object's schema definition:"],
          .elem "CodeExample" [("title", "Nested Objects with IJsonSchema"), ("description", "Define properties that reference other IJsonSchema-implementing classes"), ("cppCode", "UCLASS()\nclass UEquipment : public UObject, public IJsonSchema\n\x7b\n    GENERATED_BODY()\npublic:\n    UPROPERTY(EditAnywhere, BlueprintReadWrite)\n    FString EquipmentName;\n\n    UPROPERTY(EditAnywhere, BlueprintReadWrite,\n        Meta = (JsonSchema_Minimum = \"1\", JsonSchema_Maximum = \"50\",\n                ToolTip = \"Defense bonus provided\"))\n    int32 DefenseBonus = 0;\n\x7d;\n\nUCLASS()\nclass ACharacter : public AActor, public IJsonSchema\n\x7b\n    GENERATED_BODY()\npublic:\n    UPROPERTY(EditAnywhere, BlueprintReadWrite,\n        Meta = (JsonSchema_Optional,\n                ToolTip = \"Optional equipped armor\"))\n    UEquipment* Armor;\n\n    UPROPERTY(EditAnywhere, BlueprintReadWrite,\n        Meta = (JsonSchema_Optional,\n                ToolTip = \"Optional weapon\"))\n    UEquipment* Weapon;\n\x7d;")] [],
          .elem "Callout" [("type", "warning"), ("title", "Nested Object Requirements")] [
            .elem "p" [] [
              .text "Nested objects must also implement IJsonSchema. The schema for nested objects is recursively generated and included in the parent schema, creating a complete hierarchical schema definition."]],
          .elem "h2" [] [
            .text "Complete Example"],
          .elem "p" [] [
            .text "Here's a comprehensive example combining all schema definition techniques:"],
          .elem "CodeExample" [("title", "Comprehensive Schema Definition Example"), ("description", "Complete example demonstrating all available schema definition options"), ("cppCode", "UENUM(BlueprintType)\nenum class ECharacterRarity : uint8\n\x7b\n    Common, Uncommon, Rare, Epic, Legendary\n\x7d;\n\nUCLASS()\nclass AGameCharacter : public ACharacter, public IJsonSchema\n\x7b\n    GENERATED_BODY()\n\npublic:\n    // String with pattern\n    UPROPERTY(EditAnywhere, BlueprintReadWrite,\n        Meta = (JsonSchema_Pattern = \"^[a-zA-Z ]+$\",\n                ToolTip = \"Character name (letters and spaces only)\"))\n    FString CharacterName;\n\n    // Numeric range\n    UPROPERTY(EditAnywhere, BlueprintReadWrite,\n        Meta = (JsonSchema_Minimum = \"1\", JsonSchema_Maximum = \"100\",\n                ToolTip = \"Character level\"))\n    int32 Level = 1;\n\n    // Array with constraints\n    UPROPERTY(EditAnywhere, BlueprintReadWrite,\n        Meta = (JsonSchema_MinItems = \"1\", JsonSchema_MaxItems = \"5\",\n                ToolTip = \"Special abilities (1-5)\"))\n    TArray<FString> SpecialAbilities;\n\n    // Optional enumeration\n    UPROPERTY(EditAnywhere, BlueprintReadWrite,\n        Meta = (JsonSchema_Optional,\n                ToolTip = \"Character rarity\"))\n    ECharacterRarity Rarity = ECharacterRarity::Common;\n\n    // Optional description\n    UPROPERTY(EditAnywhere, BlueprintReadWrite,\n        Meta = (JsonSchema_Optional,\n                ToolTip = \"Optional character description\"))\n    FString Description;\n\x7d;")] [],
          .elem "h2" [] [
            .text "Metadata Reference"],
          .elem "p" [] [
            .text "All metadata options are translated directly into the JSON Schema specification:"],
          .elem "table" [("className", "w-full text-sm border-collapse")] [
            .elem "thead" [] [
              .elem "tr" [("className", "border-b")] [
                .elem "th" [("className", "text-left p-2")] [
                  .text "Metadata Key"],
                .elem "th" [("className", "text-left p-2")] [
                  .text "Value Type"],
                .elem "th" [("className", "text-left p-2")] [
                  .text "JSON Schema Equivalent"]]],
            .elem "tbody" [("className", "divide-y")] [
              .elem "tr" [] [
                .elem "td" [("className", "p-2")] [
                  .elem "code" [] [
                    .text "JsonSchema_Pattern"]],
                .elem "td" [("className", "p-2")] [
                  .text "Regex string"],
                .elem "td" [("className", "p-2")] [
                  .text "pattern property"]],
              .elem "tr" [] [
                .elem "td" [("className", "p-2")] [
                  .elem "code" [] [
                    .text "JsonSchema_Format"]],
                .elem "td" [("className", "p-2")] [
                  .text "Format string"],
                .elem "td" [("className", "p-2")] [
                  .text "format property (uuid, email, uri, date, etc.)"]],
              .elem "tr" [] [
                .elem "td" [("className", "p-2")] [
                  .elem "code" [] [
                    .text "JsonSchema_Minimum"]],
                .elem "td" [("className", "p-2")] [
                  .text "Number"],
                .elem "td" [("className", "p-2")] [
                  .text "minimum property (inclusive bound)"]],
              .elem "tr" [] [
                .elem "td" [("className", "p-2")] [
                  .elem "code" [] [
                    .text "JsonSchema_Maximum"]],
                .elem "td" [("className", "p-2")] [
                  .text "Number"],
                .elem "td" [("className", "p-2")] [
                  .text "maximum property (inclusive bound)"]],
              .elem "tr" [] [
                .elem "td" [("className", "p-2")] [
                  .elem "code" [] [
                    .text "JsonSchema_ExclusiveMinimum"]],
                .elem "td" [("className", "p-2")] [
                  .text "Flag"],
                .elem "td" [("className", "p-2")] [
                  .text "exclusiveMinimum property"]],
              .elem "tr" [] [
                .elem "td" [("className", "p-2")] [
                  .elem "code" [] [
                    .text "JsonSchema_ExclusiveMaximum"]],
                .elem "td" [("className", "p-2")] [
                  .text "Flag"],
                .elem "td" [("className", "p-2")] [
                  .text "exclusiveMaximum property"]],
              .elem "tr" [] [
                .elem "td" [("className", "p-2")] [
                  .elem "code" [] [
                    .text "JsonSchema_MultipleOf"]],
                .elem "td" [("className", "p-2")] [
                  .text "Number"],
                .elem "td" [("className", "p-2")] [
                  .text "multipleOf property"]],
              .elem "tr" [] [
                .elem "td" [("className", "p-2")] [
                  .elem "code" [] [
                    .text "JsonSchema_MinItems"]],
                .elem "td" [("className", "p-2")] [
                  .text "Number"],
                .elem "td" [("className", "p-2")] [
                  .text "minItems property"]],
              .elem "tr" [] [
                .elem "td" [("className", "p-2")] [
                  .elem "code" [] [
                    .text "JsonSchema_MaxItems"]],
                .elem "td" [("className", "p-2")] [
                  .text "Number"],
                .elem "td" [("className", "p-2")] [
                  .text "maxItems property"]],
              .elem "tr" [] [
                .elem "td" [("className", "p-2")] [
                  .elem "code" [] [
                    .text "JsonSchema_Optional"]],
                .elem "td" [("className", "p-2")] [
                  .text "Flag"],
                .elem "td" [("className", "p-2")] [
                  .text "Required/optional field"]]]],
          .elem "h2" [] [
            .text "Property Descriptions"],
          .elem "p" [] [
            .text "Property descriptions are automatically included in the generated JSON schema. The plugin sources descriptions from two places, with ToolTip metadata taking precedence:"],
          .elem "CodeExample" [("title", "Defining Property Descriptions"), ("description", "Use ToolTip metadata or line comments to document properties in your schema"), ("cppCode", "// Using ToolTip metadata (takes precedence)\nUPROPERTY(EditAnywhere, BlueprintReadWrite,\n    Meta = (ToolTip = \\\"The character's current health points\\\"))\\nint32 Health = 100;\\n\\n// Using line comment (fallback, only used if ToolTip is not present)\\n// Maximum mana this character can have\\nUPROPERTY(EditAnywhere, BlueprintReadWrite)\\nint32 MaxMana = 50;\\n\\n// ToolTip takes precedence over line comment\\n// This comment will be ignored\\nUPROPERTY(EditAnywhere, BlueprintReadWrite,\\n    Meta = (ToolTip = \\\"This is the actual description\\\"))\\nfloat AttackSpeed = 1.0f;")] [],
          .elem "p" [("className", "mt-4")] [
            .text "When both ToolTip metadata and a line comment are present, the ToolTip value is used. Line comments are useful for quick documentation during development, while ToolTip metadata provides an explicit, formal description that will definitely appear in the schema."],
          .elem "Callout" [("type", "tip"), ("title", "Best Practice for Documentation")] [
            .elem "p" [] [
              .text "Use",
              .elem "code" [] [
                .text "ToolTip"],
              .text "metadata for important public properties and when you need guaranteed documentation. Line comments work well for internal properties or when ToolTip isn't available."]]]],
      .elem "PageFooter" [] []]]

end DefiningSchemas

namespace Serialization

/-- Metadata of src/serialization.tsx. -/
def metadata : MetadataObj := [
  ("kind", .str "content"),
  ("title", .str "JSON Serialization"),
  ("description", .str "Convert between objects and JSON"),
  ("order", .num 5),
  ("icon", .str "ArrowLeftRight")]

/-- The default-exported rendering function of src/serialization.tsx. -/
def SerializationPage : Node :=
  .elem "SiteDocumentation" [] [
    .elem "PageContainer" [] [
      .elem "PageHeader" [] [],
      .elem "div" [("className", "space-y-6")] [
        .elem "p" [("className", "text-lg text-muted-foreground")] [
          .text "Serialization converts your UObject instances to JSON, and deserialization reconstructs them from JSON. Both operations use the cached schema for efficient, performant conversion."],
        .elem "h2" [] [
          .text "Serialization: Objects to JSON"],
        .elem "p" [] [
          .text "Convert any object implementing IJsonSchema to JSON using one of two methods:"],
        .elem "h3" [] [
          .text "To JSON Object"],
        .elem "p" [] [
          .text "Get a structured FJsonObject that you can manipulate before final serialization:"],
        .elem "LanguageToggleProvider" [] [
          .elem "CodeExample" [("title", "Serialize to JSON Object"), ("description", "Convert object to FJsonObject for manipulation"), ("cppCode", "AMyCharacter* Character = GetWorld()->SpawnActor<AMyCharacter>();\nCharacter->CharacterName = TEXT(\"Aragorn\");\nCharacter->Level = 20;\nCharacter->Health = 150;\n\n// Serialize to FJsonObject\nTSharedPtr<FJsonObject> JsonObject = Character->ToJson();\n\nif (JsonObject.IsValid())\n\x7b\n    // Access individual properties\n    FString Name = JsonObject->GetStringField(TEXT(\"character_name\"));\n    int32 Level = (int32)JsonObject->GetNumberField(TEXT(\"level\"));\n\n    // Or manipulate the object before further processing\n    JsonObject->SetNumberField(TEXT(\"level\"), 25);\n\x7d")] []],
        .elem "h3" [] [
          .text "To JSON String"],
        .elem "p" [] [
          .text "Directly serialize to a JSON string for transmission, storage, or logging:"],
        .elem "LanguageToggleProvider" [] [
          .elem "CodeExample" [("title", "Serialize to JSON String"), ("description", "Convert object directly to JSON string"), ("cppCode", "AMyCharacter* Character = GetWorld()->SpawnActor<AMyCharacter>();\nCharacter->CharacterName = TEXT(\"Aragorn\");\nCharacter->Level = 20;\n\n// Serialize directly to JSON string\nFString JsonString = Character->ToJsonString();\n\n// Result example:\n// \x7b\"character_name\":\"Aragorn\",\"level\":20,\"health\":150\x7d")] []],
        .elem "Callout" [("type", "tip"), ("title", "Schema-Generated Property Names")] [
          .elem "p" [] [
            .text "Property names are automatically converted from PascalCase (CharacterName) to snake_case (character_name) in JSON. This follows common JSON naming conventions."]],
        .elem "h2" [] [
          .text "Deserialization: JSON to Objects"],
        .elem "p" [] [
          .text "Reconstruct objects from JSON using the schema definition:"],
        .elem "h3" [] [
          .text "From JSON Object"],
        .elem "p" [] [
          .text "Initialize an object from a structured FJsonObject:"],
        .elem "LanguageToggleProvider" [] [
          .elem "CodeExample" [("title", "Deserialize from JSON Object"), ("description", "Initialize object from FJsonObject structure"), ("cppCode", "// Create a new character instance\nAMyCharacter* Character = GetWorld()->SpawnActor<AMyCharacter>();\n\n// Create JSON data\nTSharedPtr<FJsonObject> JsonObject = MakeShareable(new FJsonObject());\nJsonObject->SetStringField(TEXT(\"character_name\"), TEXT(\"Legolas\"));\nJsonObject->SetNumberField(TEXT(\"level\"), 18);\nJsonObject->SetNumberField(TEXT(\"health\"), 120);\n\n// Deserialize from JSON object\nif (Character->FromJson(JsonObject))\n\x7b\n    // Success - character is now populated\n    UE_LOG(LogTemp, Warning, TEXT(\"Character loaded: %s (Level %d)\"),\n        *Character->CharacterName, Character->Level);\n\x7d\nelse\n\x7b\n    // Failed - JSON didn't match schema constraints\n    UE_LOG(LogTemp, Error, TEXT(\"Failed to deserialize character\"));\n\x7d")] []],
        .elem "h3" [] [
          .text "From JSON String"],
        .elem "p" [] [
          .text "Initialize an object directly from a JSON string:"],
        .elem "LanguageToggleProvider" [] [
          .elem "CodeExample" [("title", "Deserialize from JSON String"), ("description", "Initialize object directly from JSON string"), ("cppCode", "AMyCharacter* Character = GetWorld()->SpawnActor<AMyCharacter>();\n\nFString JsonInput = TEXT(R\"(\n\x7b\n    \"character_name\": \"Gimli\",\n    \"level\": 22,\n    \"health\": 200\n\x7d\n)\");\n\n// Deserialize from string\nif (Character->FromJsonString(JsonInput))\n\x7b\n    // Success\n    UE_LOG(LogTemp, Warning, TEXT(\"Loaded: %s\"), *Character->CharacterName);\n\x7d\nelse\n\x7b\n    // Failed - invalid JSON or constraint violation\n    UE_LOG(LogTemp, Error, TEXT(\"Deserialization failed\"));\n\x7d")] []],
        .elem "h2" [] [
          .text "Round-Trip Serialization"],
        .elem "p" [] [
          .text "A key feature is round-trip serialization: convert object → JSON → object and preserve all data:"],
        .elem "LanguageToggleProvider" [] [
          .elem "CodeExample" [("title", "Round-Trip Serialization"), ("description", "Serialize to JSON and back with full data integrity"), ("cppCode", "// Create original object\nAMyCharacter* Original = GetWorld()->SpawnActor<AMyCharacter>();\nOriginal->CharacterName = TEXT(\"Boromir\");\nOriginal->Level = 19;\nOriginal->Health = 180;\n\n// Convert to JSON and back\nFString JsonString = Original->ToJsonString();\n\nAMyCharacter* Reconstructed = GetWorld()->SpawnActor<AMyCharacter>();\nReconstructed->FromJsonString(JsonString);\n\n// Data is identical\ncheck(Reconstructed->CharacterName == Original->CharacterName);\ncheck(Reconstructed->Level == Original->Level);\ncheck(Reconstructed->Health == Original->Health);")] []],
        .elem "Callout" [("type", "info"), ("title", "Data Integrity")] [
          .elem "p" [] [
            .text "Round-trip serialization is lossless for all supported property types. Complex objects and arrays are fully preserved."]],
        .elem "h2" [] [
          .text "Error Handling"],
        .elem "p" [] [
          .text "Serialization returns a JSON object or string, and deserialization returns a boolean indicating success:"],
        .elem "LanguageToggleProvider" [] [
          .elem "CodeExample" [("title", "Error Handling"), ("description", "Check success status for serialization and deserialization"), ("cppCode", "// Serialization\nTSharedPtr<FJsonObject> JsonObject = Character->ToJson();\nif (JsonObject.IsValid())\n\x7b\n    // Successfully serialized\n    FString JsonString = Character->ToJsonString();\n    UE_LOG(LogTemp, Warning, TEXT(\"Serialized: %s\"), *JsonString);\n\x7d\nelse\n\x7b\n    UE_LOG(LogTemp, Error, TEXT(\"Serialization failed\"));\n\x7d\n\n// Deserialization\nFString JsonInput = GetJsonFromNetwork();\nAMyCharacter* Character = GetWorld()->SpawnActor<AMyCharacter>();\nif (Character->FromJsonString(JsonInput))\n\x7b\n    // Successfully deserialized\n    UE_LOG(LogTemp, Warning, TEXT(\"Loaded character: %s\"), *Character->CharacterName);\n\x7d\nelse\n\x7b\n    UE_LOG(LogTemp, Error, TEXT(\"Deserialization failed\"));\n    // Character remains in default state\n\x7d")] []],
        .elem "h2" [] [
          .text "Working with Complex Types"],
        .elem "h3" [] [
          .text "Arrays"],
        .elem "p" [] [
          .text "Arrays are automatically serialized and deserialized:"],
        .elem "LanguageToggleProvider" [] [
          .elem "CodeExample" [("title", "Array Serialization"), ("description", "Automatically serialize and deserialize array properties"), ("cppCode", "UCLASS()\nclass AParty : public AActor, public IJsonSchema\n\x7b\n    GENERATED_BODY()\npublic:\n    UPROPERTY(EditAnywhere, BlueprintReadWrite)\n    TArray<FString> MemberNames;\n\x7d;\n\nAParty* Party = GetWorld()->SpawnActor<AParty>();\nParty->MemberNames.Add(TEXT(\"Frodo\"));\nParty->MemberNames.Add(TEXT(\"Sam\"));\nParty->MemberNames.Add(TEXT(\"Merry\"));\n\n// Serializes to: \x7b\"member_names\":[\"Frodo\",\"Sam\",\"Merry\"]\x7d\nFString JsonString = Party->ToJsonString();\n\n// Deserialize back\nAParty* LoadedParty = GetWorld()->SpawnActor<AParty>();\nLoadedParty->FromJsonString(JsonString);\n// MemberNames now contains the three original names")] []],
        .elem "h3" [] [
          .text "Nested Objects"],
        .elem "p" [] [
          .text "Nested objects are recursively serialized and deserialized:"],
        .elem "LanguageToggleProvider" [] [
          .elem "CodeExample" [("title", "Nested Object Serialization"), ("description", "Recursively serialize and deserialize nested IJsonSchema objects"), ("cppCode", "UCLASS()\nclass UWeapon : public UObject, public IJsonSchema\n\x7b\n    GENERATED_BODY()\npublic:\n    UPROPERTY(EditAnywhere, BlueprintReadWrite)\n    FString Name;\n\n    UPROPERTY(EditAnywhere, BlueprintReadWrite)\n    int32 Damage = 10;\n\x7d;\n\nUCLASS()\nclass AWarrior : public AActor, public IJsonSchema\n\x7b\n    GENERATED_BODY()\npublic:\n    UPROPERTY(EditAnywhere, BlueprintReadWrite)\n    FString Name;\n\n    UPROPERTY(EditAnywhere, BlueprintReadWrite)\n    UWeapon* EquippedWeapon;\n\x7d;\n\n// Create warrior with weapon\nAWarrior* Warrior = GetWorld()->SpawnActor<AWarrior>();\nWarrior->Name = TEXT(\"Aragorn\");\nWarrior->EquippedWeapon = NewObject<UWeapon>();\nWarrior->EquippedWeapon->Name = TEXT(\"Anduril\");\nWarrior->EquippedWeapon->Damage = 50;\n\n// Serialize - includes nested weapon data\nFString JsonString = Warrior->ToJsonString();\n// Result: \x7b\"name\":\"Aragorn\",\"equipped_weapon\":\x7b\"name\":\"Anduril\",\"damage\":50\x7d\x7d")] []],
        .elem "h2" [] [
          .text "Blueprint Integration"],
        .elem "p" [] [
          .text "Serialization methods are available in Blueprint as well:"],
        .elem "LanguageToggleProvider" [] [
          .elem "CodeExample" [("title", "Blueprint Serialization Workflow"), ("description", "Use serialization methods in Blueprint visual scripting"), ("cppCode", "// In Blueprint:\n// 1. Create character instance\n// 2. Call \"To Json String\" node\n// 3. Get JSON string output\n// 4. Use for saving, networking, or API calls\n\n// Deserialization:\n// 1. Get JSON string from file, network, or API\n// 2. Create new character instance\n// 3. Call \"From Json String\" node with JSON data\n// 4. Check boolean output for success")] []],
        .elem "Callout" [("type", "warning"), ("title", "Instance Lifecycle")] [
          .elem "p" [] [
            .text "When deserializing, always create a new instance first. Deserialization will populate the properties of the existing instance—it doesn't create the object for you."]],
        .elem "h2" [] [
          .text "Performance Considerations"],
        .elem "ul" [("className", "space-y-2")] [
          .elem "li" [] [
            .elem "strong" [] [
              .text "Cached Schemas:"],
            .text "No reflection overhead at runtime due to pre-built schemas"],
          .elem "li" [] [
            .elem "strong" [] [
              .text "Direct Property Access:"],
            .text "Properties are accessed directly, not through reflection"],
          .elem "li" [] [
            .elem "strong" [] [
              .text "Minimal Allocations:"],
            .text "Reuses Unreal's JSON framework efficiently"],
          .elem "li" [] [
            .elem "strong" [] [
              .text "Safe for Gameplay:"],
            .text "Serialization is performant enough for runtime game logic"]],
        .elem "Callout" [("type", "info"), ("title", "Use Cases")] [
          .elem "p" [] [
            .text "Serialization is appropriate for saving player progress, network replication, API communication, and configuration management—all within gameplay performance budgets."]]],
      .elem "PageFooter" [] []]]

end Serialization

namespace AltSerialization

/-- Metadata of src/unnamed/part_000, the second copy of the serialization guide. -/
def metadata : MetadataObj := [
  ("kind", .str "content"),
  ("title", .str "JSON Serialization"),
  ("description", .str "Convert between objects and JSON"),
  ("order", .num 5),
  ("icon", .str "ArrowLeftRight")]

/-- The default-exported rendering function of src/unnamed/part_000. -/
def SerializationPage : Node :=
  .elem "SiteDocumentation" [] [
    .elem "PageContainer" [] [
      .elem "PageHeader" [] [],
      .elem "div" [] [
        .elem "LanguageToggleProvider" [] [
          .elem "p" [] [
            .text "Serialization converts your UObject instances to JSON, and deserialization reconstructs them from JSON. Both operations use the cached schema for efficient, performant conversion. It is useful for saving player progress, network replication, API communication, and configuration management."],
          .elem "h2" [] [
            .text "Serialization: Objects to JSON and back"],
          .elem "p" [] [
            .text "Convert any object implementing IJsonSchema to JSON using one of two methods:"],
          .elem "Example" [] [
            .elem "ExampleTitle" [] [
              .text "Serialize to JSON Object"],
            .elem "ExampleContent" [] [
              .text "Get a structured FJsonObject that you can manipulate before final serialization:"],
            .elem "ExampleCpp" [] [
              .text "AMyCharacter* Character = GetWorld()->SpawnActor<AMyCharacter>();\nCharacter->CharacterName = TEXT(\"Aragorn\");\nCharacter->Level = 20;\nCharacter->Health = 150;\n\n// Serialize to FJsonObject\nTSharedPtr<FJsonObject> JsonObject = Character->ToJson();\n\nif (JsonObject.IsValid())\n\x7b\n    // Access individual properties\n    FString Name = JsonObject->GetStringField(TEXT(\"character_name\"));\n    int32 Level = (int32)JsonObject->GetNumberField(TEXT(\"level\"));\n\n    // Or manipulate the object before further processing\n    JsonObject->SetNumberField(TEXT(\"level\"), 25);\n\x7d"]],
          .elem "Example" [] [
            .elem "ExampleTitle" [] [
              .text "Serialize to JSON String"],
            .elem "ExampleContent" [] [
              .text "Directly serialize to a JSON string for transmission, storage, or logging:"],
            .elem "ExampleCpp" [] [
              .text "AMyCharacter* Character = GetWorld()->SpawnActor<AMyCharacter>();\nCharacter->CharacterName = TEXT(\"Aragorn\");\nCharacter->Level = 20;\n\n// Serialize directly to JSON string\nFString JsonString = Character->ToJsonString();\n\n// Result example:\n// \x7b\"character_name\":\"Aragorn\",\"level\":20,\"health\":150\x7d"]],
          .elem "Callout" [("type", "tip"), ("title", "Schema-Generated Property Names")] [
            .elem "p" [] [
              .text "Property names are automatically converted from PascalCase (CharacterName) to snake_case (character_name) in JSON. This follows common JSON naming conventions."]],
          .elem "p" [] [
            .text "Reconstruct objects from JSON using the schema definition:"],
          .elem "Example" [] [
            .elem "ExampleTitle" [] [
              .text "Deserialize from JSON Object"],
            .elem "ExampleContent" [] [
              .text "Initialize an object from a structured FJsonObject:"],
            .elem "ExampleCpp" [] [
              .text "// Create a new character instance\nAMyCharacter* Character = GetWorld()->SpawnActor<AMyCharacter>();\n\n// Create JSON data\nTSharedPtr<FJsonObject> JsonObject = MakeShareable(new FJsonObject());\nJsonObject->SetStringField(TEXT(\"character_name\"), TEXT(\"Legolas\"));\nJsonObject->SetNumberField(TEXT(\"level\"), 18);\nJsonObject->SetNumberField(TEXT(\"health\"), 120);\n\n// Deserialize from JSON object\nif (Character->FromJson(JsonObject))\n\x7b\n    // Success - character is now populated\n    UE_LOG(LogTemp, Warning, TEXT(\"Character loaded: %s (Level %d)\"),\n        *Character->CharacterName, Character->Level);\n\x7d\nelse\n\x7b\n    // Failed - JSON didn't match schema constraints\n    UE_LOG(LogTemp, Error, TEXT(\"Failed to deserialize character\"));\n\x7d"]],
          .elem "Example" [] [
            .elem "ExampleTitle" [] [
              .text "Deserialize from JSON String"],
            .elem "ExampleContent" [] [
              .text "Initialize an object directly from a JSON string:"],
            .elem "ExampleCpp" [] [
              .text "AMyCharacter* Character = GetWorld()->SpawnActor<AMyCharacter>();\n\nFString JsonInput = TEXT(R\"(\n\x7b\n    \"character_name\": \"Gimli\",\n    \"level\": 22,\n    \"health\": 200\n\x7d\n)\");\n\n// Deserialize from string\nif (Character->FromJsonString(JsonInput))\n\x7b\n    // Success\n    UE_LOG(LogTemp, Warning, TEXT(\"Loaded: %s\"), *Character->CharacterName);\n\x7d\nelse\n\x7b\n    // Failed - invalid JSON or constraint violation\n    UE_LOG(LogTemp, Error, TEXT(\"Deserialization failed\"));\n\x7d"]],
          .elem "Example" [] [
            .elem "ExampleTitle" [] [
              .text "Error Handling"],
            .elem "ExampleContent" [] [
              .text "Serialization returns a JSON object or string, and deserialization returns a boolean indicating success:"],
            .elem "ExampleCpp" [] [
              .text "// Serialization\nTSharedPtr<FJsonObject> JsonObject = Character->ToJson();\nif (JsonObject.IsValid())\n\x7b\n    // Successfully serialized\n    FString JsonString = Character->ToJsonString();\n    UE_LOG(LogTemp, Warning, TEXT(\"Serialized: %s\"), *JsonString);\n\x7d\nelse\n\x7b\n    UE_LOG(LogTemp, Error, TEXT(\"Serialization failed\"));\n\x7d\n\n// Deserialization\nFString JsonInput = GetJsonFromNetwork();\nAMyCharacter* Character = GetWorld()->SpawnActor<AMyCharacter>();\nif (Character->FromJsonString(JsonInput))\n\x7b\n    // Successfully deserialized\n    UE_LOG(LogTemp, Warning, TEXT(\"Loaded character: %s\"), *Character->CharacterName);\n\x7d\nelse\n\x7b\n    UE_LOG(LogTemp, Error, TEXT(\"Deserialization failed\"));\n    // Character remains in default state\n\x7d"]],
          .elem "h2" [] [
            .text "Working with Complex Types"],
          .elem "Example" [] [
            .elem "ExampleTitle" [] [
              .text "Array Serialization"],
            .elem "ExampleContent" [] [
              .text "Automatically serialize and deserialize array properties."],
            .elem "ExampleCpp" [] [
              .text "UCLASS()\nclass AParty : public AActor, public IJsonSchema\n\x7b\n    GENERATED_BODY()\npublic:\n    UPROPERTY(EditAnywhere, BlueprintReadWrite)\n    TArray<FString> MemberNames;\n\x7d;\n\nAParty* Party = GetWorld()->SpawnActor<AParty>();\nParty->MemberNames.Add(TEXT(\"Frodo\"));\nParty->MemberNames.Add(TEXT(\"Sam\"));\nParty->MemberNames.Add(TEXT(\"Merry\"));\n\n// Serializes to: \x7b\"member_names\":[\"Frodo\",\"Sam\",\"Merry\"]\x7d\nFString JsonString = Party->ToJsonString();\n\n// Deserialize back\nAParty* LoadedParty = GetWorld()->SpawnActor<AParty>();\nLoadedParty->FromJsonString(JsonString);\n// MemberNames now contains the three original names"]],
          .elem "h3" [] [
            .text "Nested Objects"],
          .elem "Example" [] [
            .elem "ExampleTitle" [] [
              .text "Nested Object Serialization"],
            .elem "ExampleContent" [] [
              .text "Recursively serialize and deserialize nested IJsonSchema objects."],
            .elem "ExampleCpp" [] [
              .text "UCLASS()\nclass UWeapon : public UObject, public IJsonSchema\n\x7b\n    GENERATED_BODY()\npublic:\n    UPROPERTY(EditAnywhere, BlueprintReadWrite)\n    FString Name;\n\n    UPROPERTY(EditAnywhere, BlueprintReadWrite)\n    int32 Damage = 10;\n\x7d;\n\nUCLASS()\nclass AWarrior : public AActor, public IJsonSchema\n\x7b\n    GENERATED_BODY()\npublic:\n    UPROPERTY(EditAnywhere, BlueprintReadWrite)\n    FString Name;\n\n    UPROPERTY(EditAnywhere, BlueprintReadWrite)\n    UWeapon* EquippedWeapon;\n\x7d;\n\n// Create warrior with weapon\nAWarrior* Warrior = GetWorld()->SpawnActor<AWarrior>();\nWarrior->Name = TEXT(\"Aragorn\");\nWarrior->EquippedWeapon = NewObject<UWeapon>();\nWarrior->EquippedWeapon->Name = TEXT(\"Anduril\");\nWarrior->EquippedWeapon->Damage = 50;\n\n// Serialize - includes nested weapon data\nFString JsonString = Warrior->ToJsonString();\n// Result: \x7b\"name\":\"Aragorn\",\"equipped_weapon\":\x7b\"name\":\"Anduril\",\"damage\":50\x7d\x7d"]]]],
      .elem "PageFooter" [] []]]

end AltSerialization

namespace AltDefiningSchemas

/-- Metadata of src/unnamed/part_001, the second copy of the schema-definition guide. -/
def metadata : MetadataObj := [
  ("kind", .str "content"),
  ("title", .str "Defining Schemas"),
  ("description", .str "Learn how to define JSON schemas using UPROPERTY metadata"),
  ("order", .num 3),
  ("icon", .str "Zap")]

/-- The default-exported rendering function of src/unnamed/part_001. -/
def DefiningSchemaPage : Node :=
  .elem "SiteDocumentation" [] [
    .elem "PageContainer" [] [
      .elem "PageHeader" [] [],
      .elem "div" [] [
        .elem "LanguageToggleProvider" [] [
          .elem "p" [] [
            .text "Define your JSON schema directly in your Unreal Engine class using UPROPERTY metadata. The plugin leverages Unreal's reflection system to generate schemas at compile-time. Your class definition becomes your schema definition, and all UPROPERTY metadata is automatically translated to JSON Schema properties. The schema includes type information, constraints, and documentation. It can be exported for use with external APIs that follow the JSON Schema specification."],
          .elem "Example" [] [
            .elem "ExampleTitle" [] [
              .text "Excluding Properties from Schema"],
            .elem "ExampleContent" [] [
              .text "By default, all UPROPERTY-decorated properties are included in the JSON schema. To exclude a property from serialization and schema generation, use the",
              .elem "code" [] [
                .text "JsonSchema_ExcludeFromSchema"],
              .text "metadata flag:"],
            .elem "ExampleCpp" [] [
              .text "UCLASS()\nclass ACharacter : public AActor, public IJsonSchema\n\x7b\n    GENERATED_BODY()\npublic:\n    // This property IS included in the schema\n    UPROPERTY(EditAnywhere, BlueprintReadWrite)\n    FString CharacterName;\n\n    // This property is NOT included (excluded from schema)\n    UPROPERTY(EditAnywhere, BlueprintReadWrite,\n        Meta = (JsonSchema_ExcludeFromSchema))\n    int32 InternalCounter;\n\x7d;"]],
          .elem "Example" [] [
            .elem "ExampleTitle" [] [
              .text "Defining Property Descriptions"],
            .elem "ExampleContent" [] [
              .text "Property descriptions are automatically included in the generated JSON schema. The plugin sources descriptions from either ToolTips or line comments, with ToolTip metadata taking precedenc:"],
            .elem "ExampleCpp" [] [
              .text "// Using ToolTip metadata (takes precedence)\nUPROPERTY(EditAnywhere, BlueprintReadWrite,\n    Meta = (ToolTip = \"The character's current health points\"))\nint32 Health = 100;\n\n// Using line comment (fallback, only used if ToolTip is not present)\n// Maximum mana this character can have\nUPROPERTY(EditAnywhere, BlueprintReadWrite)\nint32 MaxMana = 50;\n\n// ToolTip takes precedence over line comment\n// This comment will be ignored\nUPROPERTY(EditAnywhere, BlueprintReadWrite,\n    Meta = (ToolTip = \"This is the actual description\"))\nfloat AttackSpeed = 1.0f;"]],
          .elem "Callout" [("type", "tip"), ("title", "Best Practice for Documentation")] [
            .elem "p" [] [
              .text "When both ToolTip metadata and a line comment are present, the ToolTip value is used. Use",
              .elem "code" [] [
                .text "ToolTip"],
              .text "metadata to explicitly control the JSON schema descriptions per property, if you need more extensive code comments, which should not go into the schema."]],
          .elem "Example" [] [
            .elem "ExampleTitle" [] [
              .text "Marking Properties as Optional"],
            .elem "ExampleContent" [] [
              .text "Mark properties as optional using the",
              .elem "code" [] [
                .text "JsonSchema_Optional"],
              .text "metadata flag. Optional properties can be absent from JSON during deserialization without causing errors. When optional properties are not present in JSON, they retain their default values."],
            .elem "ExampleCpp" [] [
              .text "// Optional string property\nUPROPERTY(EditAnywhere, BlueprintReadWrite,\n    Meta = (JsonSchema_Optional,\n            ToolTip = \"Optional character biography\"))\nFString Biography;\n\n// Optional nested object\nUPROPERTY(EditAnywhere, BlueprintReadWrite,\n    Meta = (JsonSchema_Optional,\n            ToolTip = \"Optional special equipment\"))\nUEquipment* SpecialEquipment;\n\n// Optional enumeration\nUPROPERTY(EditAnywhere, BlueprintReadWrite,\n    Meta = (JsonSchema_Optional))\nECharacterClass SecondaryClass;"]],
          .elem "Example" [] [
            .elem "ExampleTitle" [] [
              .text "Runtime Optional Property Overrides"],
            .elem "ExampleContent" [] [
              .text "For advanced use cases, you can override which properties are optional at runtime by implementing",
              .elem "code" [] [
                .text "GetOptionalPropertyOverrides()"],
              .text "in your class:"],
            .elem "ExampleCpp" [] [
              .text "UCLASS()\nclass AGameCharacter : public ACharacter, public IJsonSchema\n\x7b\n    GENERATED_BODY()\npublic:\n    virtual TArray<FName> GetOptionalPropertyOverrides() const override\n    \x7b\n        // These properties will be treated as optional during deserialization\n        // regardless of their JsonSchema_Optional metadata\n        return \x7b\n            GET_MEMBER_NAME_CHECKED(AGameCharacter, Biography),\n            GET_MEMBER_NAME_CHECKED(AGameCharacter, SpecialEquipment)\n        \x7d;\n    \x7d\n\n    UPROPERTY(EditAnywhere, BlueprintReadWrite)\n    FString CharacterName;\n\n    UPROPERTY(EditAnywhere, BlueprintReadWrite)\n    FString Biography;\n\n    UPROPERTY(EditAnywhere, BlueprintReadWrite)\n    UEquipment* SpecialEquipment;\n\x7d;"]],
          .elem "Example" [] [
            .elem "ExampleTitle" [] [
              .text "String Properties with Patterns and Formats"],
            .elem "ExampleContent" [] [
              .text "String properties can include regex patterns and format specifications. These metadata values are translated directly into JSON Schema properties:"],
            .elem "ExampleCpp" [] [
              .text "// String with regex pattern\nUPROPERTY(EditAnywhere, BlueprintReadWrite,\n    Meta = (JsonSchema_Pattern = \"^[a-zA-Z0-9_]+$\",\n            ToolTip = \"Username must be alphanumeric with underscores\"))\nFString Username;\n\n// String with UUID format\nUPROPERTY(EditAnywhere, BlueprintReadWrite,\n    Meta = (JsonSchema_Format = \"uuid\",\n            ToolTip = \"Unique identifier\"))\nFString UniqueID;\n\n// String with email format\nUPROPERTY(EditAnywhere, BlueprintReadWrite,\n    Meta = (JsonSchema_Format = \"email\",\n            ToolTip = \"Contact email address\"))\nFString ContactEmail;\n\n// String with URI format\nUPROPERTY(EditAnywhere, BlueprintReadWrite,\n    Meta = (JsonSchema_Format = \"uri\",\n            ToolTip = \"Web address\"))\nFString WebsiteUrl;"]],
          .elem "Callout" [("type", "info"), ("title", "Format Support")] [
            .elem "p" [] [
              .text "Supported formats include: uuid, email, uri, date, time, date-time, and more as per the JSON Schema specification."]],
          .elem "Example" [] [
            .elem "ExampleTitle" [] [
              .text "Numeric Properties with Constraints"],
            .elem "ExampleContent" [] [
              .text "Define ranges and divisibility rules for integer and floating-point properties. These metadata values are translated into JSON Schema numeric constraints:"],
            .elem "ExampleCpp" [] [
              .text "// Integer with inclusive min/max bounds\nUPROPERTY(EditAnywhere, BlueprintReadWrite,\n    Meta = (JsonSchema_Minimum = \"1\", JsonSchema_Maximum = \"100\",\n            ToolTip = \"Health points (1-100)\"))\nint32 Health = 100;\n\n// Float with exclusive minimum (value must be greater than 0)\nUPROPERTY(EditAnywhere, BlueprintReadWrite,\n    Meta = (JsonSchema_Minimum = \"0\", JsonSchema_ExclusiveMinimum,\n            ToolTip = \"Damage multiplier (must be > 0)\"))\nfloat DamageMultiplier = 1.0f;\n\n// Numeric value that must be a multiple of a specific number\nUPROPERTY(EditAnywhere, BlueprintReadWrite,\n    Meta = (JsonSchema_MultipleOf = \"0.5\",\n            ToolTip = \"Attack speed (must be multiple of 0.5)\"))\nfloat AttackSpeed = 1.0f;\n\n// Using exclusive maximum\nUPROPERTY(EditAnywhere, BlueprintReadWrite,\n    Meta = (JsonSchema_Maximum = \"1.0\", JsonSchema_ExclusiveMaximum,\n            ToolTip = \"Damage reduction (must be < 1.0)\"))\nfloat DamageReduction = 0.5f;"]],
          .elem "Example" [] [
            .elem "ExampleTitle" [] [
              .text "Array Properties with Item Constraints"],
            .elem "ExampleContent" [] [
              .text "Array properties support constraints on the number of items. These metadata values are translated into JSON Schema array constraints:"],
            .elem "ExampleCpp" [] [
              .text "// Array with item count constraints\nUPROPERTY(EditAnywhere, BlueprintReadWrite,\n    Meta = (JsonSchema_MinItems = \"1\", JsonSchema_MaxItems = \"5\",\n            ToolTip = \"Special abilities (1-5 abilities)\"))\nTArray<FString> Abilities;\n\n// Array with minimum items required\nUPROPERTY(EditAnywhere, BlueprintReadWrite,\n    Meta = (JsonSchema_MinItems = \"3\",\n            ToolTip = \"RGB color components (at least 3 items)\"))\nTArray<int32> ColorValues;\n\n// Array with no constraints\nUPROPERTY(EditAnywhere, BlueprintReadWrite,\n    Meta = (ToolTip = \"List of inventory items\"))\nTArray<FString> InventoryItems;"]],
          .elem "Example" [] [
            .elem "ExampleTitle" [] [
              .text "Enumeration Properties"],
            .elem "ExampleContent" [] [
              .text "Enumerations are automatically serialized as human-readable strings and included in the JSON schema as enum constraints:"],
            .elem "ExampleCpp" [] [
              .text "UENUM(BlueprintType)\nenum class ECharacterClass : uint8\n\x7b\n    Warrior UMETA(DisplayName = \"Warrior\"),\n    Mage UMETA(DisplayName = \"Mage\"),\n    Rogue UMETA(DisplayName = \"Rogue\"),\n\x7d;\n\nUCLASS()\nclass ACharacter : public AActor, public IJsonSchema\n\x7b\n    GENERATED_BODY()\npublic:\n    UPROPERTY(EditAnywhere, BlueprintReadWrite)\n    ECharacterClass CharacterClass = ECharacterClass::Warrior;\n\n    UPROPERTY(EditAnywhere, BlueprintReadWrite,\n        Meta = (JsonSchema_Optional,\n                ToolTip = \"Secondary character class\"))\n    ECharacterClass SecondaryClass;\n\x7d;\n\n// Serialized as: \x7b\"character_class\":\"Warrior\",\"secondary_class\":\"Mage\"\x7d\n// Schema includes enum as: \"enum\": [\"Warrior\", \"Mage\", \"Rogue\"]"]],
          .elem "Example" [] [
            .elem "ExampleTitle" [] [
              .text "Nested Objects with IJsonSchema"],
            .elem "ExampleContent" [] [
              .text "Include other UObjects that implement IJsonSchema as nested properties. The schema recursively includes the nested object's schema definition:"],
            .elem "ExampleCpp" [] [
              .text "UCLASS()\nclass UEquipment : public UObject, public IJsonSchema\n\x7b\n    GENERATED_BODY()\npublic:\n    UPROPERTY(EditAnywhere, BlueprintReadWrite)\n    FString EquipmentName;\n\n    UPROPERTY(EditAnywhere, BlueprintReadWrite,\n        Meta = (JsonSchema_Minimum = \"1\", JsonSchema_Maximum = \"50\",\n                ToolTip = \"Defense bonus provided\"))\n    int32 DefenseBonus = 0;\n\x7d;\n\nUCLASS()\nclass ACharacter : public AActor, public IJsonSchema\n\x7b\n    GENERATED_BODY()\npublic:\n    UPROPERTY(EditAnywhere, BlueprintReadWrite,\n        Meta = (JsonSchema_Optional,\n                ToolTip = \"Optional equipped armor\"))\n    UEquipment* Armor;\n\n    UPROPERTY(EditAnywhere, BlueprintReadWrite,\n        Meta = (JsonSchema_Optional,\n                ToolTip = \"Optional weapon\"))\n    UEquipment* Weapon;\n\x7d;"]],
          .elem "Callout" [("type", "warning"), ("title", "Nested Object Requirements")] [
            .elem "p" [] [
              .text "Nested objects must also implement IJsonSchema. The schema for nested objects is recursively generated and included in the parent schema, creating a complete hierarchical schema definition."]],
          .elem "h2" [] [
            .text "Complete Example"],
          .elem "p" [] [
            .text "Here's a comprehensive example combining all schema definition techniques:"],
          .elem "Example" [] [
            .elem "ExampleTitle" [] [
              .text "Comprehensive Schema Definition Example"],
            .elem "ExampleContent" [] [
              .text "Complete example demonstrating all available schema definition options."],
            .elem "ExampleCpp" [] [
              .text "UENUM(BlueprintType)\nenum class ECharacterRarity : uint8\n\x7b\n    Common, Uncommon, Rare, Epic, Legendary\n\x7d;\n\nUCLASS()\nclass AGameCharacter : public ACharacter, public IJsonSchema\n\x7b\n    GENERATED_BODY()\n\npublic:\n    // String with pattern\n    UPROPERTY(EditAnywhere, BlueprintReadWrite,\n        Meta = (JsonSchema_Pattern = \"^[a-zA-Z ]+$\",\n                ToolTip = \"Character name (letters and spaces only)\"))\n    FString CharacterName;\n\n    // Numeric range\n    UPROPERTY(EditAnywhere, BlueprintReadWrite,\n        Meta = (JsonSchema_Minimum = \"1\", JsonSchema_Maximum = \"100\",\n                ToolTip = \"Character level\"))\n    int32 Level = 1;\n\n    // Array with constraints\n    UPROPERTY(EditAnywhere, BlueprintReadWrite,\n        Meta = (JsonSchema_MinItems = \"1\", JsonSchema_MaxItems = \"5\",\n                ToolTip = \"Special abilities (1-5)\"))\n    TArray<FString> SpecialAbilities;\n\n    // Optional enumeration\n    UPROPERTY(EditAnywhere, BlueprintReadWrite,\n        Meta = (JsonSchema_Optional,\n                ToolTip = \"Character rarity\"))\n    ECharacterRarity Rarity = ECharacterRarity::Common;\n\n    // Optional description\n    UPROPERTY(EditAnywhere, BlueprintReadWrite,\n        Meta = (JsonSchema_Optional,\n                ToolTip = \"Optional character description\"))\n    FString Description;\n\x7d;"]],
          .elem "h2" [] [
            .text "Metadata Reference"],
          .elem "p" [] [
            .text "All metadata options are translated directly into the JSON Schema specification:"],
          .elem "table" [("className", "w-full text-sm border-collapse")] [
            .elem "thead" [] [
              .elem "tr" [("className", "border-b")] [
                .elem "th" [("className", "text-left p-2")] [
                  .text "Metadata Key"],
                .elem "th" [("className", "text-left p-2")] [
                  .text "Value Type"],
                .elem "th" [("className", "text-left p-2")] [
                  .text "JSON Schema Equivalent"]]],
            .elem "tbody" [("className", "divide-y")] [
              .elem "tr" [] [
                .elem "td" [("className", "p-2")] [
                  .elem "code" [] [
                    .text "JsonSchema_Pattern"]],
                .elem "td" [("className", "p-2")] [
                  .text "Regex string"],
                .elem "td" [("className", "p-2")] [
                  .text "pattern property"]],
              .elem "tr" [] [
                .elem "td" [("className", "p-2")] [
                  .elem "code" [] [
                    .text "JsonSchema_Format"]],
                .elem "td" [("className", "p-2")] [
                  .text "Format string"],
                .elem "td" [("className", "p-2")] [
                  .text "format property (uuid, email, uri, date, etc.)"]],
              .elem "tr" [] [
                .elem "td" [("className", "p-2")] [
                  .elem "code" [] [
                    .text "JsonSchema_Minimum"]],
                .elem "td" [("className", "p-2")] [
                  .text "Number"],
                .elem "td" [("className", "p-2")] [
                  .text "minimum property (inclusive bound)"]],
              .elem "tr" [] [
                .elem "td" [("className", "p-2")] [
                  .elem "code" [] [
                    .text "JsonSchema_Maximum"]],
                .elem "td" [("className", "p-2")] [
                  .text "Number"],
                .elem "td" [("className", "p-2")] [
                  .text "maximum property (inclusive bound)"]],
              .elem "tr" [] [
                .elem "td" [("className", "p-2")] [
                  .elem "code" [] [
                    .text "JsonSchema_ExclusiveMinimum"]],
                .elem "td" [("className", "p-2")] [
                  .text "Flag"],
                .elem "td" [("className", "p-2")] [
                  .text "exclusiveMinimum property"]],
              .elem "tr" [] [
                .elem "td" [("className", "p-2")] [
                  .elem "code" [] [
                    .text "JsonSchema_ExclusiveMaximum"]],
                .elem "td" [("className", "p-2")] [
                  .text "Flag"],
                .elem "td" [("className", "p-2")] [
                  .text "exclusiveMaximum property"]],
              .elem "tr" [] [
                .elem "td" [("className", "p-2")] [
                  .elem "code" [] [
                    .text "JsonSchema_MultipleOf"]],
                .elem "td" [("className", "p-2")] [
                  .text "Number"],
                .elem "td" [("className", "p-2")] [
                  .text "multipleOf property"]],
              .elem "tr" [] [
                .elem "td" [("className", "p-2")] [
                  .elem "code" [] [
                    .text "JsonSchema_MinItems"]],
                .elem "td" [("className", "p-2")] [
                  .text "Number"],
                .elem "td" [("className", "p-2")] [
                  .text "minItems property"]],
              .elem "tr" [] [
                .elem "td" [("className", "p-2")] [
                  .elem "code" [] [
                    .text "JsonSchema_MaxItems"]],
                .elem "td" [("className", "p-2")] [
                  .text "Number"],
                .elem "td" [("className", "p-2")] [
                  .text "maxItems property"]],
              .elem "tr" [] [
                .elem "td" [("className", "p-2")] [
                  .elem "code" [] [
                    .text "JsonSchema_Optional"]],
                .elem "td" [("className", "p-2")] [
                  .text "Flag"],
                .elem "td" [("className", "p-2")] [
                  .text "Required/optional field"]]]]]],
      .elem "PageFooter" [] []]]

end AltDefiningSchemas

namespace SchemaCache

/-- Metadata of src/unnamed/part_002, the schema-cache guide. -/
def metadata : MetadataObj := [
  ("kind", .str "content"),
  ("title", .str "Schema Cache"),
  ("description", .str "Understanding and managing the JSON Schema cache"),
  ("order", .num 4),
  ("icon", .str "Database")]

/-- The default-exported rendering function of src/unnamed/part_002. -/
def SchemaCachePage : Node :=
  .elem "SiteDocumentation" [] [
    .elem "PageContainer" [] [
      .elem "PageHeader" [] [],
      .elem "div" [] [
        .elem "LanguageToggleProvider" [] [
          .elem "p" [] [
            .text "The Schema Cache is a data asset that stores pre-generated JSON schemas for all your classes that implement IJsonSchema. Using a cache enables efficient runtime serialization and schema export without reflection overhead."],
          .elem "h2" [] [
            .text "What is the Schema Cache?"],
          .elem "p" [] [
            .text "The Schema Cache is a UJsonSchemaCache data asset that contains pre-computed JSON schemas for all your classes that implement IJsonSchema. The plugin uses these pre-built definitions for:"],
          .elem "ul" [("className", "space-y-2")] [
            .elem "li" [] [
              .elem "strong" [] [
                .text "Serialization:"],
              .text "Converting objects to JSON"],
            .elem "li" [] [
              .elem "strong" [] [
                .text "Deserialization:"],
              .text "Converting JSON back to objects"],
            .elem "li" [] [
              .elem "strong" [] [
                .text "Schema Export:"],
              .text "Providing schemas to external systems like OpenAI's structured output"]],
          .elem "p" [("className", "mt-4")] [
            .text "By pre-computing schemas at compile-time rather than using reflection at runtime, the plugin achieves efficient, performant serialization suitable for gameplay and runtime use."],
          .elem "h2" [] [
            .text "Creating a Schema Cache"],
          .elem "p" [] [
            .text "Follow these steps to create a new Schema Cache data asset:"],
          .elem "ol" [("className", "space-y-4 list-decimal list-inside")] [
            .elem "li" [] [
              .elem "strong" [] [
                .text "Open Content Browser"],
              .text "and navigate to your project's content folder"],
            .elem "li" [] [
              .elem "strong" [] [
                .text "Right-click in empty space"],
              .text "and select",
              .elem "strong" [] [
                .text "Miscellaneous → Data Asset"]],
            .elem "li" [] [
              .elem "strong" [] [
                .text "Choose UJsonSchemaCache"],
              .text "as the data asset class"],
            .elem "li" [] [
              .elem "strong" [] [
                .text "Name it appropriately"],
              .text "(e.g., \"DefaultJsonSchemaCache\" or \"GameDataSchemaCache\")"],
            .elem "li" [] [
              .elem "strong" [] [
                .text "Double-click to open"],
              .text "and verify it's created (it will be mostly empty at first)"]],
          .elem "h2" [] [
            .text "Configuring the Cache"],
          .elem "p" [] [
            .text "Point your project to use the Schema Cache in project settings:"],
          .elem "ol" [("className", "space-y-4 list-decimal list-inside")] [
            .elem "li" [] [
              .text "Go to",
              .elem "strong" [] [
                .text "Edit → Project Settings"]],
            .elem "li" [] [
              .text "Navigate to",
              .elem "strong" [] [
                .text "Plugins → JSON Object & Schema Utility"]],
            .elem "li" [] [
              .text "In the",
              .elem "strong" [] [
                .text "Default Schema Cache"],
              .text "dropdown, select your cache asset"],
            .elem "li" [] [
              .elem "strong" [] [
                .text "Save"],
              .text "the project settings"]],
          .elem "h2" [] [
            .text "Automatic Cache Building"],
          .elem "p" [] [
            .text "The cache is automatically built in these scenarios:"],
          .elem "ul" [("className", "space-y-2")] [
            .elem "li" [] [
              .elem "strong" [] [
                .text "Editor Startup:"],
              .text "When you open the Unreal Engine editor, the cache is built for all IJsonSchema classes in loaded modules"],
            .elem "li" [] [
              .elem "strong" [] [
                .text "Hot Reload:"],
              .text "When you modify and recompile a class (e.g., in Visual Studio during the editor session), the cache is automatically updated"],
            .elem "li" [] [
              .elem "strong" [] [
                .text "Full Recompile:"],
              .text "When you compile your project through the editor's compile button"]],
          .elem "p" [("className", "mt-4")] [
            .text "You don't need to take any manual action for these automatic builds—they happen transparently in the background."],
          .elem "Callout" [("type", "info"), ("title", "Automatic Generation")] [
            .elem "p" [] [
              .text "The plugin's editor module automatically detects all compiled classes that implement IJsonSchema and generates their schemas, storing them in the configured cache."]],
          .elem "h2" [] [
            .text "Using the Cache at Runtime"],
          .elem "p" [] [
            .text "The runtime automatically uses the configured cache during serialization and deserialization. You typically don't need to interact with it directly, but if needed, you can access it programmatically:"],
          .elem "CodeExample" [("title", "Accessing the Schema Cache"), ("description", "Get and use the schema cache at runtime"), ("cppCode", "// Get the effective schema cache\nUJsonSchemaCache* Cache = UJsonSchemaUtilityRuntimeSettings::GetEffectiveSchemaCache();\n\n// Find a schema for a specific class\nconst FJsonSchemaObject* Schema = Cache->FindSchemaForClass(UMyClass::StaticClass()->GetFName());\n\nif (Schema)\n\x7b\n    // Use the schema for validation or inspection\n    UE_LOG(LogTemp, Warning, TEXT(\"Schema found for UMyClass\"));\n\x7d")] [],
          .elem "h2" [] [
            .text "Serialization with Cache"],
          .elem "p" [] [
            .text "When you serialize an object, the plugin uses the cache to efficiently convert it to JSON:"],
          .elem "ol" [("className", "space-y-2 list-decimal list-inside")] [
            .elem "li" [] [
              .text "Look up the schema for the object's class"],
            .elem "li" [] [
              .text "Iterate through all properties defined in the schema"],
            .elem "li" [] [
              .text "Convert each property value to a JSON representation"],
            .elem "li" [] [
              .text "Build and return the final JSON object"]],
          .elem "p" [] [
            .text "Since the schema is pre-built, no expensive reflection is needed at runtime:"],
          .elem "CodeExample" [("title", "Serialization with Cached Schema"), ("description", "Efficient serialization without reflection overhead"), ("cppCode", "// Efficient serialization using cached schema\nAMyCharacter* Character = GetWorld()->SpawnActor<AMyCharacter>();\nCharacter->CharacterName = TEXT(\"Hero\");\nCharacter->Level = 5;\n\n// This uses the cached schema - no reflection overhead\nFString JsonString = Character->ToJsonString();\n// Result: \x7b\"character_name\":\"Hero\",\"level\":5\x7d")] [],
          .elem "h2" [] [
            .text "Deserialization with Cache"],
          .elem "p" [] [
            .text "During deserialization, the cache enables the plugin to efficiently reconstruct objects from JSON:"],
          .elem "ol" [("className", "space-y-2 list-decimal list-inside")] [
            .elem "li" [] [
              .text "Look up the schema for the target class"],
            .elem "li" [] [
              .text "Parse the incoming JSON"],
            .elem "li" [] [
              .text "Map JSON fields to object properties based on the schema"],
            .elem "li" [] [
              .text "Apply the values to the object"]],
          .elem "CodeExample" [("title", "Deserialization with Cached Schema"), ("description", "Efficient deserialization from JSON using the cached schema"), ("cppCode", "// Efficient deserialization using cached schema\nFString JsonInput = TEXT(R\"(\x7b\n  \"character_name\": \"Hero\",\n  \"level\": 5\n\x7d)\");\n\nAMyCharacter* Character = GetWorld()->SpawnActor<AMyCharacter>();\nif (Character->FromJsonString(JsonInput))\n\x7b\n    // Successfully reconstructed from JSON\n    UE_LOG(LogTemp, Warning, TEXT(\"Character: %s (Level %d)\"),\n        *Character->CharacterName, Character->Level);\n\x7d")] [],
          .elem "h2" [] [
            .text "Manual Cache Rebuild"],
          .elem "p" [] [
            .text "If you need to manually rebuild the cache (for example, after moving or renaming files), use the editor's Tools menu:"],
          .elem "ol" [("className", "space-y-4 list-decimal list-inside")] [
            .elem "li" [] [
              .text "Go to",
              .elem "strong" [] [
                .text "Tools → Rebuild JSON Schema Cache"],
              .text "in the main editor menu"],
            .elem "li" [] [
              .text "The plugin will scan all loaded modules for classes implementing IJsonSchema"],
            .elem "li" [] [
              .text "Generated schemas will be written to the configured cache asset"],
            .elem "li" [] [
              .text "You'll see confirmation in the Output Log when the rebuild completes"]],
          .elem "Callout" [("type", "info"), ("title", "When to Manually Rebuild")] [
            .elem "p" [] [
              .text "Manual rebuild is rarely needed since automatic builds handle editor startup and hot reloads. Use it if you suspect the cache is out of sync, or after significant project reorganization."]],
          .elem "h2" [] [
            .text "Best Practices"],
          .elem "h3" [] [
            .text "Create One Cache Per Project (Usually)"],
          .elem "p" [] [
            .text "Most projects use a single Schema Cache. However, if you have multiple distinct sets of classes (e.g., in different plugins), you can use separate caches."],
          .elem "h3" [] [
            .text "Place Cache in Appropriate Folder"],
          .elem "p" [] [
            .text "Store your cache in a project-wide location like",
            .elem "code" [] [
              .text "Content/Config"],
            .text "or",
            .elem "code" [] [
              .text "Content/Data"],
            .text "so it's easily found and managed."],
          .elem "h3" [] [
            .text "Don't Delete Classes Without Recompiling"],
          .elem "p" [] [
            .text "If you remove a class that implements IJsonSchema, recompile your project to update the cache. The old schema will be automatically removed."],
          .elem "h3" [] [
            .text "Use Named Caches for Organization"],
          .elem "p" [] [
            .text "If using multiple caches, use descriptive names like \"GameplaySchemaCache\" or \"NetworkingSchemaCache\" to keep track of what each cache contains."],
          .elem "Callout" [("type", "warning"), ("title", "Cache is Compile-Time Generated")] [
            .elem "p" [] [
              .text "The cache is generated at editor compile time and baked into your packaged game. Changes to class definitions require recompilation to update the cache."]],
          .elem "h2" [] [
            .text "Troubleshooting"],
          .elem "h3" [] [
            .text "My Class Doesn't Appear in the Cache"],
          .elem "p" [] [
            .text "Make sure:"],
          .elem "ul" [("className", "space-y-1")] [
            .elem "li" [] [
              .text "Your class implements IJsonSchema"],
            .elem "li" [] [
              .text "Your project has been compiled"],
            .elem "li" [] [
              .text "The cache asset is set in Project Settings → Plugins → JSON Object & Schema Utility"],
            .elem "li" [] [
              .text "Your class is in a loaded module"]],
          .elem "p" [("className", "mt-2")] [
            .text "If these are all correct, try manually rebuilding the cache via",
            .elem "strong" [] [
              .text "Tools → Rebuild JSON Schema Cache"],
            .text "."],
          .elem "h3" [] [
            .text "Schema is Out of Date After Code Changes"],
          .elem "p" [] [
            .text "If you modify a class's properties and the schema hasn't updated:"],
          .elem "ol" [("className", "space-y-1 list-decimal list-inside")] [
            .elem "li" [] [
              .text "Save your class modifications"],
            .elem "li" [] [
              .text "Recompile the project (the cache automatically updates)"],
            .elem "li" [] [
              .text "If still out of date, use",
              .elem "strong" [] [
                .text "Tools → Rebuild JSON Schema Cache"]]],
          .elem "h3" [] [
            .text "Getting Schema in C++ Code"],
          .elem "p" [] [
            .text "If you need to access a schema at runtime for inspection or validation:"],
          .elem "CodeExample" [("title", "Accessing Schema at Runtime"), ("description", "Retrieve and inspect a schema in C++ code"), ("cppCode", "// Get the cache\nUJsonSchemaCache* Cache = UJsonSchemaUtilityRuntimeSettings::GetEffectiveSchemaCache();\nif (!Cache)\n\x7b\n    UE_LOG(LogTemp, Error, TEXT(\"No schema cache configured\"));\n    return;\n\x7d\n\n// Find schema for your class\nconst FJsonSchemaObject* Schema = Cache->FindSchemaForClass(AMyCharacter::StaticClass()->GetFName());\nif (!Schema)\n\x7b\n    UE_LOG(LogTemp, Error, TEXT(\"Schema not found for AMyCharacter\"));\n    return;\n\x7d\n\n// Now you can use the schema for validation or inspection")] []]],
      .elem "PageFooter" [] []]]

end SchemaCache

namespace FeatureRequest

/-- Metadata of the feature-request external-link module (first module of src/unnamed/part_003). -/
def metadata : MetadataObj := [
  ("kind", .str "external"),
  ("title", .str "Feature Request"),
  ("href", .str "https://github.com/osmalpkoras/docs-json-schema-utility-plugin/issues/new?template=feature_request.md"),
  ("description", .str "Request changes or new features for the JSON Object & Schema Utility plugin"),
  ("icon", .str "Sparkles"),
  ("order", .num 3)]

end FeatureRequest

namespace DiscordLink

/-- Metadata of the Discord external-link module (second module of src/unnamed/part_003). -/
def metadata : MetadataObj := [
  ("kind", .str "external"),
  ("title", .str "Discord"),
  ("href", .str "https://discord.com/invite/VR6YMu8wb5"),
  ("description", .str "Community resources for the JSON Object & Schema Utility plugin"),
  ("icon", .str "MessageCircle"),
  ("order", .num 1)]

end DiscordLink

namespace CommunityGroup

/-- Metadata of the Community navigation-group module (src/unnamed/part_004); its object literal declares kind, title, description and order only. -/
def metadata : MetadataObj := [
  ("kind", .str "group"),
  ("title", .str "Community"),
  ("description", .str "Community resources for the JSON Object & Schema Utility plugin"),
  ("order", .num 400)]

end CommunityGroup

/-- Identifier for the six default-exported page-rendering functions. -/
inductive PageId where
  | home
  | definingSchemas
  | serialization
  | altSerialization
  | altDefiningSchemas
  | schemaCache
deriving DecidableEq

/-- What a module's default export is: a page-rendering function, or the site
configuration object. -/
inductive DefaultExport where
  | page (id : PageId)
  | configExport
deriving DecidableEq

/-- One module of the repository: the file it lives in, the metadata object it
exports (when it exports one) and its default export (when it has one). -/
structure SiteModule where
  file : String
  metadata : Option MetadataObj
  defaultExport : Option DefaultExport
deriving DecidableEq

/-- Every module of the repository, in file order; a file that holds several
concatenated modules contributes them in order. -/
def modules : List SiteModule := [
  { file := "src/community/issues.tsx", metadata := some BugReport.metadata, defaultExport := none },
  { file := "src/community/issues.tsx", metadata := some Home.metadata, defaultExport := some (.page .home) },
  { file := "src/community/issues.tsx", metadata := none, defaultExport := some .configExport },
  { file := "src/defining-schemas.tsx", metadata := some DefiningSchemas.metadata, defaultExport := some (.page .definingSchemas) },
  { file := "src/serialization.tsx", metadata := some Serialization.metadata, defaultExport := some (.page .serialization) },
  { file := "src/unnamed/part_000", metadata := some AltSerialization.metadata, defaultExport := some (.page .altSerialization) },
  { file := "src/unnamed/part_001", metadata := some AltDefiningSchemas.metadata, defaultExport := some (.page .altDefiningSchemas) },
  { file := "src/unnamed/part_002", metadata := some SchemaCache.metadata, defaultExport := some (.page .schemaCache) },
  { file := "src/unnamed/part_003", metadata := some FeatureRequest.metadata, defaultExport := none },
  { file := "src/unnamed/part_003", metadata := some DiscordLink.metadata, defaultExport := none },
  { file := "src/unnamed/part_004", metadata := some CommunityGroup.metadata, defaultExport := none }]

/-- The metadata objects the repository's modules export, in module order. -/
def allMetadata : List MetadataObj := modules.filterMap SiteModule.metadata

/-- The rendering function a page identifier denotes, applied to a site
configuration (only the home page reads the configuration, through useSite). -/
def renderOf (p : PageId) (cfg : SiteConfig) : Node :=
  match p with
  | .home => Home.HomePage cfg
  | .definingSchemas => DefiningSchemas.DefiningSchemaPage
  | .serialization => Serialization.SerializationPage
  | .altSerialization => AltSerialization.SerializationPage
  | .altDefiningSchemas => AltDefiningSchemas.DefiningSchemaPage
  | .schemaCache => SchemaCache.SchemaCachePage

/-- The immediate text children of a child list. -/
def childTexts : List Node → List String
  | [] => []
  | .text s :: ns => s :: childTexts ns
  | .elem _ _ _ :: ns => childTexts ns

mutual

/-- All values of href attributes in an element tree, in document order. -/
def hrefAttrs : Node → List String
  | .text _ => []
  | .elem _ attrs children =>
      (attrs.filter (fun a => a.1 == "href")).map Prod.snd ++ hrefAttrsList children

/-- Values of href attributes over a list of element trees. -/
def hrefAttrsList : List Node → List String
  | [] => []
  | n :: ns => hrefAttrs n ++ hrefAttrsList ns

end

mutual

/-- The code samples of an element tree: the values of cppCode attributes of
CodeExample elements and the text children of ExampleCpp elements. -/
def codeStrings : Node → List String
  | .text _ => []
  | .elem tag attrs children =>
      (if tag == "CodeExample" then (attrs.filter (fun a => a.1 == "cppCode")).map Prod.snd else []) ++
      (if tag == "ExampleCpp" then childTexts children else []) ++
      codeStringsList children

/-- Code samples over a list of element trees. -/
def codeStringsList : List Node → List String
  | [] => []
  | n :: ns => codeStrings n ++ codeStringsList ns

end

/-- Whether the last entry of a child list is a PageFooter element. -/
def lastIsFooter : List Node → Bool
  | [] => false
  | [.elem "PageFooter" _ _] => true
  | [_] => false
  | _ :: n :: ns => lastIsFooter (n :: ns)

/-- Whether a tree is a SiteDocumentation element whose only child is a
PageContainer whose last child is a PageFooter. -/
def wrappedInLayout : Node → Bool
  | .elem "SiteDocumentation" _ [.elem "PageContainer" _ cs] => lastIsFooter cs
  | _ => false

/-- A content-page record in the sense of the specification's data model: a
metadata object of kind content together with a default-exported
page-rendering function. -/
def isContentPageRecord (m : SiteModule) : Bool :=
  match m.metadata, m.defaultExport with
  | some md, some (.page _) => kindOf md == some "content"
  | _, _ => false

/-- An external-link record: metadata of kind external carrying an href, with
no default export. -/
def isExternalLinkRecord (m : SiteModule) : Bool :=
  match m.metadata, m.defaultExport with
  | some md, none => kindOf md == some "external" && hasField md "href"
  | _, _ => false

/-- A navigation-group record: metadata of kind group, with no default
export. -/
def isGroupRecord (m : SiteModule) : Bool :=
  match m.metadata, m.defaultExport with
  | some md, none => kindOf md == some "group"
  | _, _ => false

/-- The site-configuration module: no metadata export; the default export is
the configuration object. -/
def isConfigModule (m : SiteModule) : Bool :=
  m.metadata == none && m.defaultExport == some .configExport

/-- The href fields declared by metadata objects, in module order. -/
def metadataHrefs : List String := allMetadata.filterMap hrefOf

/-- The href fields of the site configuration's headerLinks block. -/
def configHrefs (cfg : SiteConfig) : List String :=
  [cfg.headerLinks.github.href, cfg.headerLinks.discord.href, cfg.headerLinks.fab.href]

/-- Every outbound destination the repository declares as a static href field:
the metadata hrefs and the configuration's header links (the header links do
not depend on the environment helper the configuration is parameterised by). -/
def declaredHrefs : List String := metadataHrefs ++ configHrefs (siteConfig fun _ => "")

/-- Whether the second string is a prefix of the first, decided on the
character lists so that concrete instances evaluate. -/
def strStarts (s pre : String) : Bool := pre.toList.isPrefixOf s.toList

/-- Whether a URL points at one of the repository's three declared outbound
destinations: its GitHub repository (including the issue templates), the
Discord invite, or the FAB marketplace listing. -/
def isDeclaredDestination (s : String) : Bool :=
  strStarts s "https://github.com/osmalpkoras/docs-json-schema-utility-plugin"
  || s == "https://discord.com/invite/VR6YMu8wb5"
  || strStarts s "https://www.fab.com/listings/"

/-- The field shape claim C1 asserts for every exported metadata record: kind,
title, description, order and icon all present, and no field beyond those five
and href. -/
def claimedFieldShape (m : MetadataObj) : Bool :=
  hasField m "kind" && hasField m "title" && hasField m "description" &&
  hasField m "order" && hasField m "icon" &&
  (fieldNames m).all (fun k => ["kind", "title", "description", "order", "icon", "href"].contains k)

/-- The titles of the metadata records of kind content, in module order. -/
def contentTitles : List String :=
  allMetadata.filterMap (fun m => if kindOf m == some "content" then titleOf m else none)

/-- The titles of the metadata records of kind external, in module order. -/
def externalTitles : List String :=
  allMetadata.filterMap (fun m => if kindOf m == some "external" then titleOf m else none)

/-- C1 counterexample: the claim fails as stated, because the home page's
metadata record, exported by the second module of src/community/issues.tsx,
omits the icon field (only href was claimed to be optional). -/
theorem C1_counterexample :
    some Home.metadata ∈ modules.map SiteModule.metadata ∧
    claimedFieldShape Home.metadata = false := by decide

/-- C1 (amended): every metadata record exported by a module declares kind,
title, description and order, and declares no field beyond those four plus
icon and href; icon and href are the only fields that may be absent, and icon
is absent only in the home page's and the Community navigation group's
records. -/
theorem C1_field_shape :
    allMetadata.all (fun m =>
      hasField m "kind" && hasField m "title" && hasField m "description" &&
      hasField m "order" &&
      (fieldNames m).all (fun k => ["kind", "title", "description", "order", "icon", "href"].contains k) &&
      (hasField m "icon" || m == Home.metadata || m == CommunityGroup.metadata)) = true := by decide

/-- C2 counterexample: the claim fails as stated, because the third module of
src/community/issues.tsx exports the site-configuration object, a data record
that is not a pair of a metadata object and a page-rendering function (the
external-link modules likewise export metadata with no rendering function). -/
theorem C2_counterexample :
    ({ file := "src/community/issues.tsx", metadata := none, defaultExport := some .configExport } : SiteModule) ∈ modules ∧
    isContentPageRecord { file := "src/community/issues.tsx", metadata := none, defaultExport := some .configExport } = false := by decide

/-- C2 (amended): every data record a module defines is one of four shapes —
a content-page record (metadata of kind content plus a default-exported
rendering function), an external-link record, a navigation-group record, or
the site-configuration export. -/
theorem C2_record_shapes :
    modules.all (fun m =>
      isContentPageRecord m || isExternalLinkRecord m || isGroupRecord m || isConfigModule m) = true := by decide

/-- C3: the content pages are exactly the home/landing page, the
schema-definition guide, the serialization guide (each guide in two copies)
and the schema-cache guide; the external-link pages are exactly the three
community links; and every default-exported rendering function belongs to a
record of kind content. -/
theorem C3_pages_exactly :
    contentTitles = ["JSON Object & Schema Utility Plugin", "Defining Schemas",
      "JSON Serialization", "JSON Serialization", "Defining Schemas", "Schema Cache"] ∧
    externalTitles = ["Report an Bug", "Feature Request", "Discord"] ∧
    modules.all (fun m =>
      match m.defaultExport with
      | some (.page _) => (m.metadata.map kindOf).join == some "content"
      | _ => true) = true := by decide

/-- C4: every href rendered by a page is one of the hrefs the repository
declares as a static string field; the rendered hrefs do not depend on the
environment helper the configuration is parameterised by; and every declared
href is a fixed absolute https URL to one of the three outbound destinations
(the plugin's GitHub repository and issue templates, the Discord invite and
the FAB marketplace listing). -/
theorem C4_static_links : ∀ (g g' : String → String) (p : PageId),
    (hrefAttrs (renderOf p (siteConfig g))).all (fun s => declaredHrefs.contains s) = true ∧
    hrefAttrs (renderOf p (siteConfig g)) = hrefAttrs (renderOf p (siteConfig g')) ∧
    declaredHrefs.all (fun s => strStarts s "https://" && isDeclaredDestination s) = true := by
  intro g g' p
  cases p <;> exact ⟨rfl, rfl, by decide⟩

/-- C5: every default-exported page-rendering function is a pure function of
the site configuration: its result is determined by the configuration alone
(indeed only by its headerLinks block, the only part any page reads), so two
invocations on the same configuration render the same element tree. -/
theorem C5_pure_render : ∀ (p : PageId) (c c' : SiteConfig),
    c.headerLinks = c'.headerLinks → renderOf p c = renderOf p c' := by
  intro p c c' h
  cases p
  case home => show Home.HomePage c = Home.HomePage c'; unfold Home.HomePage; rw [h]
  all_goals rfl

/-- C5 witness: the home page renders the same tree under two configurations
built from different environment helpers. -/
theorem C5_pure_render_witness :
    renderOf .home (siteConfig fun s => s) = renderOf .home (siteConfig fun _ => "x") :=
  C5_pure_render .home (siteConfig fun s => s) (siteConfig fun _ => "x") rfl

/-- C6: every content page's rendering function returns a SiteDocumentation
element whose only child is a PageContainer whose last child is a PageFooter,
for every site configuration. -/
theorem C6_layout_wrapped : ∀ (p : PageId) (c : SiteConfig),
    wrappedInLayout (renderOf p c) = true := by
  intro p c
  cases p <;> rfl

/-- C7: the code samples every page renders (cppCode attributes of CodeExample
elements and text children of ExampleCpp elements) are fixed string literals:
the list of rendered code samples is the same under any two site
configurations. -/
theorem C7_code_samples_fixed : ∀ (p : PageId) (c c' : SiteConfig),
    codeStrings (renderOf p c) = codeStrings (renderOf p c') := by
  intro p c c'
  cases p <;> rfl

/-- C8: the metadata kind field determines the module's shape: a module of
kind external declares an href and exports no default page-rendering function,
and a module of kind content exports a default page-rendering function and
declares no href. -/
theorem C8_kind_determines_shape :
    modules.all (fun m =>
      match m.metadata with
      | none => true
      | some md =>
        (kindOf md != some "external" ||
          (hasField md "href" &&
            match m.defaultExport with
            | some (.page _) => false
            | _ => true)) &&
        (kindOf md != some "content" ||
          (!hasField md "href" &&
            match m.defaultExport with
            | some (.page _) => true
            | _ => false))) = true := by decide

/-- C9: the two copies of each duplicated guide export equal metadata: the
metadata of src/serialization.tsx equals that of src/unnamed/part_000, and the
metadata of src/defining-schemas.tsx equals that of src/unnamed/part_001. -/
theorem C9_duplicate_metadata_equal :
    Serialization.metadata = AltSerialization.metadata ∧
    DefiningSchemas.metadata = AltDefiningSchemas.metadata := ⟨rfl, rfl⟩

/-- C10: every metadata record's order field is a positive integer, and every
href the repository declares (metadata records and the configuration's header
links) is an absolute URL beginning with https. -/
theorem C10_order_and_hrefs :
    allMetadata.all (fun m => (orderValOf m).any (fun n => decide (0 < n))) = true ∧
    declaredHrefs.all (fun s => strStarts s "https://") = true := by decide
